import Mathlib

/-!
Verification of the bigcodebench-auto test harness.

A shallow embedding of the Go test-harness (`src/main.go`, with the earlier
variant `src/unnamed/part_000`) and proofs about its hash-gated result cache,
its coverage parsers, its exit-code logic, its notification emission and its
candidate-renaming helper.

Modelling conventions:
* Go strings are modelled as `List Char` (`Str`); all string helpers are
  written by structural recursion so that concrete instances evaluate inside
  the kernel (`decide`/`rfl`).
* The filesystem is a partial map from paths to file contents plus a
  directory-existence predicate (`FS`).  `os.ReadFile`/`os.Stat` become reads
  of that map; `os.WriteFile` becomes a functional update.
* SHA-256 is abstracted as a parameter `h : Str → Str`; properties that rest
  on collision absence take explicit no-collision hypotheses at the inputs at
  hand (SHA-256 is not literally injective, but the design treats it so).
* Go `float64` values are modelled as exact rationals `ℚ`; the quantities the
  spec mentions (87.5, 75.0, …) are exactly representable in `float64`, so no
  rounding divergence arises at the claims' inputs.
* External processes (the `go test` runner, the coverage tools, terminals)
  are oracles: parameters that supply the outcome of the one external call the
  surrounding code makes, so the glue logic around them stays source-faithful.
-/

namespace BCB

/-- Go strings, modelled as their character lists. -/
abbrev Str := List Char

/-- Embed a Lean string literal as a `Str`. -/
def s (x : String) : Str := x.data

/-- Does `pat` occur as a prefix of `x`?  (Models `strings.HasPrefix`.) -/
def startsWithStr : Str → Str → Bool
  | [], _ => true
  | _ :: _, [] => false
  | p :: ps, c :: cs => p = c && startsWithStr ps cs

/-- Remove the prefix `pat` from `x`, if present. -/
def stripPre : Str → Str → Option Str
  | [], x => some x
  | _ :: _, [] => none
  | p :: ps, c :: cs => if p = c then stripPre ps cs else none

/-- Models `strings.TrimPrefix`: remove the prefix when present, else return `x`. -/
def trimPreStr (pat x : Str) : Str :=
  match stripPre pat x with
  | some r => r
  | none => x

/-- Does `pat` occur as a substring of `x`?  (Models `strings.Contains`.) -/
def containsStr (x pat : Str) : Bool :=
  match x with
  | [] => startsWithStr pat []
  | _ :: cs => startsWithStr pat x || containsStr cs pat

/-- Go `strings.TrimSpace` whitespace class (ASCII part, which is all the
harness ever feeds it). -/
def isSpaceChar (c : Char) : Bool :=
  c = ' ' || c = '\t' || c = '\n' || c = '\x0d' || c = '\x0b' || c = '\x0c'

/-- Drop leading whitespace. -/
def dropLeadingSpace : Str → Str
  | [] => []
  | c :: cs => if isSpaceChar c then dropLeadingSpace cs else c :: cs

/-- Models `strings.TrimSpace`: drop leading and trailing whitespace. -/
def trimStr (x : Str) : Str :=
  (dropLeadingSpace (dropLeadingSpace x.reverse).reverse)

/-- Split a string on a separator character (models `strings.Split` with a
one-character separator, e.g. splitting output into lines). -/
def splitOnChar (sep : Char) : Str → List Str
  | [] => [[]]
  | c :: cs =>
    let rest := splitOnChar sep cs
    if c = sep then [] :: rest
    else
      match rest with
      | [] => [[c]]
      | r :: rs => (c :: r) :: rs

/-- Models `filepath.Join` of two components (the harness runs with `/` separators;
on Windows the separator differs but the path algebra is identical). -/
def joinPath (dir file : Str) : Str := dir ++ '/' :: file

/-- Models `filepath.Base`: the last path component. -/
def baseName (p : Str) : Str := (splitOnChar '/' p).getLastD []

/-- Rejoin path segments with `/`. -/
def joinSegs : List Str → Str
  | [] => []
  | [x] => x
  | x :: xs => x ++ '/' :: joinSegs xs

/-- Models `filepath.Dir` (restricted to the slash-separated paths the harness
builds): everything before the last separator, `"."` when there is none. -/
def dirName (p : Str) : Str :=
  match (splitOnChar '/' p).dropLast with
  | [] => s "."
  | segs => joinSegs segs

/-- Models `strings.TrimSuffix`: drop `suf` from the end of `x` when present. -/
def stripSuffixStr (suf x : Str) : Str :=
  if startsWithStr suf.reverse x.reverse then (x.reverse.drop suf.length).reverse
  else x

/-- Decimal digit list of a natural number, by fuel (`fuel > digits` always
holds for `fuel = n + 1`).  Models `fmt`'s `%d`. -/
def natToStrAux : Nat → Nat → Str
  | 0, _ => []
  | fuel + 1, n =>
    if n < 10 then [Char.ofNat ('0'.toNat + n)]
    else natToStrAux fuel (n / 10) ++ [Char.ofNat ('0'.toNat + n % 10)]

/-- Decimal rendering of a natural number. -/
def natToStr (n : Nat) : Str := natToStrAux (n + 1) n

/-- Numeric value of a decimal digit string (models `strconv.Atoi` on the
digit-only strings the regexes capture; `Atoi`'s overflow error can only hit
captures whose value is far outside 1‥26, which the callers reject anyway). -/
def digitsToNat (ds : Str) : Nat :=
  ds.foldl (fun a c => 10 * a + (c.toNat - '0'.toNat)) 0

/-- The filesystem: file contents by path, plus directory existence.
`file p = none` models `os.Stat`/`os.ReadFile` failing with not-exist. -/
structure FS where
  file : Str → Option Str
  dir : Str → Bool

/-- Models `os.WriteFile`: functional update of one file (last write wins). -/
def FS.setFile (fs : FS) (p c : Str) : FS :=
  { fs with file := fun q => if q = p then some c else fs.file q }

/-- Models `os.Stat` succeeding on a path (either a file or a directory exists). -/
def FS.pathExists (fs : FS) (p : Str) : Bool :=
  fs.dir p || (fs.file p).isSome

/-- Structure `TestResult` from the source: outcome of one candidate run. -/
structure TestResult where
  name : Str
  success : Bool
  output : Str
  lineCoverage : ℚ
  branchCoverage : ℚ
  coverageReport : Str
  cached : Bool
  deriving DecidableEq

/-- Structure `MainCoverageResult` from the source: the reference-pair coverage
analysis. -/
structure MainCoverageResult where
  lineCoverage : ℚ
  branchCoverage : ℚ
  coverageReport : Str
  cached : Bool
  deriving DecidableEq

/-! ## Hasher (`calculateFileHash`, `generateCombinedHash`)

`h` abstracts the hex-encoded SHA-256 digest of a byte string. -/

/-- Function `calculateFileHash`: read the file fully and digest its contents. -/
def calculateFileHash (h : Str → Str) (fs : FS) (p : Str) : Except Str Str :=
  match fs.file p with
  | none => .error (s "open " ++ p ++ s ": no such file")
  | some c => .ok (h c)

/-- Function `generateCombinedHash`: digest both files, concatenate the two hex
digests, and digest the concatenation. -/
def generateCombinedHash (h : Str → Str) (fs : FS) (responseFile testFile : Str) :
    Except Str Str :=
  match calculateFileHash h fs responseFile with
  | .error e => .error (s "error hashing response file: " ++ e)
  | .ok responseHash =>
    match calculateFileHash h fs testFile with
    | .error e => .error (s "error hashing test file: " ++ e)
    | .ok testHash => .ok (h (responseHash ++ testHash))

/-! ## Cache Store (`readHashCache`, `writeHashCache`, `loadCachedResult`)

The store is two flat files per candidate folder: `hash.cache` holding the
fingerprint and `result.txt` holding the report text. -/

/-- Function `readHashCache`: read the cache file and trim surrounding whitespace;
`none` models any read error. -/
def readHashCache (fs : FS) (cacheFile : Str) : Option Str :=
  (fs.file cacheFile).map trimStr

/-- Function `writeHashCache`: write the fingerprint to the cache file. -/
def writeHashCache (fs : FS) (cacheFile hash : Str) : FS :=
  fs.setFile cacheFile hash

/-- Function `loadCachedResult`: read `result.txt` in the candidate folder and rebuild
a `TestResult`; success is detected by scanning the stored text for the
`"PASSED"` marker or the `go test` success token `"ok\t"`. -/
def loadCachedResult (fs : FS) (responseFolder : Str) : Option TestResult :=
  match fs.file (joinPath responseFolder (s "result.txt")) with
  | none => none
  | some data =>
    some { name := baseName responseFolder
           success := containsStr data (s "PASSED") || containsStr data (s "ok\t")
           output := data
           lineCoverage := 0
           branchCoverage := 0
           coverageReport := []
           cached := true }

/-- The cache lookup `runGoTest` performs inline (src/main.go:908-915): read
the stored fingerprint, and only when it equals the fresh one load the stored
report; absent on any read error or mismatch. -/
def cacheLookup (fs : FS) (responseFolder freshHash : Str) : Option TestResult :=
  match readHashCache fs (joinPath responseFolder (s "hash.cache")) with
  | none => none
  | some cachedHash =>
    if cachedHash = freshHash then loadCachedResult fs responseFolder else none

/-- The cache store `runGoTest` performs after a fresh run
(src/main.go:929-938): write the report to `result.txt`, then the fingerprint
to `hash.cache`. -/
def cacheStore (fs : FS) (responseFolder freshHash report : Str) : FS :=
  writeHashCache (fs.setFile (joinPath responseFolder (s "result.txt")) report)
    (joinPath responseFolder (s "hash.cache")) freshHash

/-! ## Candidate renaming (`renameResponse`) -/

/-- The literal `"response"`. -/
def responseLit : Str := s "response"

/-- The regex match `^response(\d+)$`: the capture group when the whole name
is `response` followed by one or more ASCII digits. -/
def respMatch (name : Str) : Option Str :=
  match stripPre responseLit name with
  | none => none
  | some ds => if !ds.isEmpty && ds.all Char.isDigit then some ds else none

/-- Function `renameResponse`: `"response<N>"` with `1 ≤ N ≤ 26` becomes
`"response_"` followed by the `N`-th uppercase letter; anything else is an
error. -/
def renameResponse (name : Str) : Except Str Str :=
  match respMatch name with
  | none => .error (s "invalid format: " ++ name)
  | some ds =>
    let num := digitsToNat ds
    if num < 1 ∨ 26 < num then .error (s "only supports 1-26")
    else .ok (s "response_" ++ [Char.ofNat ('A'.toNat + num - 1)])

/-- The name `runGoTest` actually hands to the terminal runner: the renamed
name, falling back to the original on a rename error (src/main.go:917-921). -/
def effectiveResponseName (name : Str) : Str :=
  match renameResponse name with
  | .ok v => v
  | .error _ => name

/-! ## `runGoTest`

The runner itself (`openTerminalAndRunTest`) is an oracle
`runner : Str → TestResult × Option Str`: given the (renamed) response name it
yields the result and the error value of the one external invocation.  The
returned `Bool` records whether the external runner was invoked (i.e. the
cache did not serve the request). -/

/-- Function `runGoTest` (src/main.go:891-941): hash the candidate and test file,
serve from cache when the stored fingerprint matches, otherwise run the test
and overwrite `result.txt` and `hash.cache`. -/
def runGoTest (h : Str → Str) (fs : FS) (responseFile testFile : Str)
    (runner : Str → TestResult × Option Str) : TestResult × FS × Bool :=
  let responseFolder := dirName responseFile
  let responseName := stripSuffixStr (s ".go") (baseName responseFile)
  match generateCombinedHash h fs responseFile testFile with
  | .error e =>
    ({ name := responseName, success := false,
       output := s "Failed to generate hash: " ++ e,
       lineCoverage := 0, branchCoverage := 0, coverageReport := [],
       cached := false }, fs, false)
  | .ok currentHash =>
    match cacheLookup fs responseFolder currentHash with
    | some cachedResult => (cachedResult, fs, false)
    | none =>
      let renamed := effectiveResponseName responseName
      let (result, err) := runner renamed
      match err with
      | some e =>
        ({ result with output := s "Failed to run test in terminal: " ++ e },
         fs, true)
      | none => (result, cacheStore fs responseFolder currentHash result.output, true)

/-! ## External Runner (`openTerminalAndRunTest`, `killProcessTree`)

The runner races the `go test` process against a 10-second timer.  We model
the two race outcomes with `ExecOutcome` and embed the result-assembly code
(src/main.go:298-369).  `killProcessTree` (src/main.go:140-157) is modelled
by the list of kill commands it actually issues. -/

/-- Values of `runtime.GOOS` the source branches on. -/
inductive OSKind
  | windows
  | darwin
  | linux
  deriving DecidableEq

/-- A process-kill command issued by `killProcessTree`. -/
inductive KillAction
  | taskkillTree
  deriving DecidableEq

/-- Function `killProcessTree`: on Windows it runs `taskkill /F /T /PID`; on
darwin/linux the `syscall.Kill` call is commented out in the source, so no
kill command is issued at all. -/
def killProcessTree (os : OSKind) (processStarted : Bool) : List KillAction :=
  if !processStarted then []
  else
    match os with
    | .windows => [.taskkillTree]
    | .darwin => []
    | .linux => []

/-- Outcome of racing the test process against the 10-second timeout. -/
inductive ExecOutcome
  | completed (output : Str) (err : Option Str)
  | timedOut

/-- The `TestResult` assembled by `openTerminalAndRunTest` after the race
(src/main.go:302-369). -/
def terminalRunResult (responseName : Str) (outcome : ExecOutcome) : TestResult :=
  let base : TestResult :=
    { name := responseName, success := false, output := [],
      lineCoverage := 0, branchCoverage := 0, coverageReport := [],
      cached := false }
  match outcome with
  | .timedOut =>
    { base with
      output := s "=== Test Output ===\n" ++ s "Test timed out after 10 seconds"
        ++ s "\n" ++ s "\n⏰ TEST TIMED OUT AFTER 10 SECONDS\n",
      success := false }
  | .completed out none =>
    { base with
      output := s "=== Test Output ===\n" ++ out ++ s "\n",
      success := true }
  | .completed out (some e) =>
    { base with
      output := s "=== Test Output ===\n" ++ out ++ s "\n"
        ++ s "\nTest Error: " ++ e ++ s "\n",
      success := false }

/-! ## Coverage parsers (`parseCoverageReport`, `parseGobcoCoverage`)

Both regexes are embedded as hand-rolled leftmost-first matchers specialised
to their patterns, with Go's greedy backtracking semantics worked out case by
case (the character classes involved are disjoint, so greediness is
determinate). -/

/-- Go regexp `\s` class: `[\t\n\f\r ]`. -/
def isRegexSpace (c : Char) : Bool :=
  c = ' ' || c = '\t' || c = '\n' || c = '\x0c' || c = '\x0d'

/-- Match `(\d+\.?\d*)%` at the head of `cs`, returning the capture group.
Backtracking cannot rescue a failed `%`: any shorter split of the digit runs
leaves a digit or `.` where `%` is required. -/
def matchNumPercentAt (cs : Str) : Option Str :=
  let (d1, r1) := cs.span Char.isDigit
  if d1.isEmpty then none
  else
    match r1 with
    | '%' :: _ => some d1
    | '.' :: r2 =>
      let (d2, r3) := r2.span Char.isDigit
      match r3 with
      | '%' :: _ => some (d1 ++ '.' :: d2)
      | _ => none
    | _ => none

/-- Match `coverage:\s+(\d+\.?\d*)%` at the head of `cs`. -/
def matchCoverageAt (cs : Str) : Option Str :=
  match stripPre (s "coverage:") cs with
  | none => none
  | some rest =>
    let (ws, r) := rest.span isRegexSpace
    if ws.isEmpty then none else matchNumPercentAt r

/-- Leftmost match of `coverage:\s+(\d+\.?\d*)%` (Go
`regexp.FindStringSubmatch` tries start positions left to right). -/
def findCoverageCapture : Str → Option Str
  | [] => none
  | c :: cs =>
    match matchCoverageAt (c :: cs) with
    | some cap => some cap
    | none => findCoverageCapture cs

/-- Models `strconv.ParseFloat` on a `\d+\.?\d*` capture, as an exact rational. -/
def capToRat (cap : Str) : ℚ :=
  let (d1, r) := cap.span Char.isDigit
  match r with
  | '.' :: d2 => (digitsToNat d1 : ℚ) + (digitsToNat d2 : ℚ) / (10 : ℚ) ^ d2.length
  | _ => (digitsToNat d1 : ℚ)

/-- Function `parseCoverageReport` (src/main.go:807-817): capture of the leftmost
`coverage:\s+(\d+\.?\d*)%` match, parsed as a float; `0.0` when absent. -/
def parseCoverageReport (output : Str) : ℚ :=
  match findCoverageCapture output with
  | some cap => capToRat cap
  | none => 0

/-- Match `Condition coverage:\s+(\d+)/(\d+)` at the head of `cs`, returning
the two captures. -/
def matchCondAt (cs : Str) : Option (Str × Str) :=
  match stripPre (s "Condition coverage:") cs with
  | none => none
  | some rest =>
    let (ws, r1) := rest.span isRegexSpace
    if ws.isEmpty then none
    else
      let (d1, r2) := r1.span Char.isDigit
      if d1.isEmpty then none
      else
        match r2 with
        | '/' :: r3 =>
          let (d2, _) := r3.span Char.isDigit
          if d2.isEmpty then none else some (d1, d2)
        | _ => none

/-- Leftmost match of `Condition coverage:\s+(\d+)/(\d+)` within a line. -/
def findCondCapture : Str → Option (Str × Str)
  | [] => none
  | c :: cs =>
    match matchCondAt (c :: cs) with
    | some r => some r
    | none => findCondCapture cs

/-- Go `%.1f` on the non-negative rationals the parsers produce (Go rounds
ties to even; the harness's values are never ties, so half-up is faithful on
every reachable input). -/
def fmt1 (q : ℚ) : Str :=
  let n := (Rat.floor (q * 10 + 1 / 2)).toNat
  natToStr (n / 10) ++ '.' :: natToStr (n % 10)

/-- One line of `parseGobcoCoverage`'s scan (src/main.go:825-846): trim the
line, update the running branch coverage on a `Condition coverage: X/Y` match
with positive `Y`, and append report lines. -/
def gobcoStep (st : ℚ × Str) (line : Str) : ℚ × Str :=
  let tl := trimStr line
  let (bc, rep) := st
  let (bc2, rep2) :=
    if containsStr tl (s "Condition coverage:") then
      match findCondCapture tl with
      | some (c, t) =>
        let bcNew :=
          if 0 < digitsToNat t then
            ((digitsToNat c : ℚ) / (digitsToNat t : ℚ)) * 100
          else bc
        (bcNew,
         rep ++ s "Branch Coverage: " ++ fmt1 bcNew ++ s "% ("
           ++ trimPreStr (s "Condition coverage: ") tl ++ s ")\n")
      | none => (bc, rep)
    else (bc, rep)
  if containsStr tl (s "condition")
      && (containsStr tl (s "never") || containsStr tl (s "times")) then
    (bc2, rep2 ++ tl ++ ['\n'])
  else (bc2, rep2)

/-- Function `parseGobcoCoverage` (src/main.go:820-849): scan the output line by line;
the returned coverage is the value left by the last matching line. -/
def parseGobcoCoverage (output : Str) : ℚ × Str :=
  (splitOnChar '\n' output).foldl gobcoStep (0, [])

/-- First component of `parseGobcoCoverage`: the branch-coverage percentage. -/
def parseGobcoCoverageVal (output : Str) : ℚ :=
  (parseGobcoCoverage output).1

/-! ## Coverage Analyzer (`runMainCoverageAnalysis`)

The two external coverage invocations (`openTerminalAndRunMainTest` for
`line_coverage` and `branch_coverage`) are oracles `lineRun`/`branchRun`;
`calls` records which external analyses were actually invoked. -/

/-- Result of the analyzer together with the updated filesystem and the
external invocations made. -/
structure CoverageOutcome where
  result : MainCoverageResult
  fs : FS
  calls : List Str

/-- Function `runMainCoverageAnalysis` (src/main.go:700-805).  `generateMainGoHash` is
`generateCombinedHash` applied to `taskDir/main.go` and
`taskDir/main_test.go` (its body is the same two-file digest, differing only
in the wording of its error messages). -/
def runMainCoverageAnalysis (h : Str → Str) (fs : FS) (taskDir : Str)
    (lineRun branchRun : Except Str Str) : CoverageOutcome :=
  let mainGoFile := joinPath taskDir (s "main.go")
  let testFile := joinPath taskDir (s "main_test.go")
  let cacheFile := joinPath taskDir (s "main_coverage.cache")
  let resultFile := joinPath taskDir (s "main_coverage_result.txt")
  if (fs.file mainGoFile).isNone then
    ⟨⟨0, 0, s "main.go not found - skipping coverage analysis", false⟩, fs, []⟩
  else if (fs.file testFile).isNone then
    ⟨⟨0, 0, s "main_test.go not found - skipping coverage analysis", false⟩, fs, []⟩
  else
    match generateCombinedHash h fs mainGoFile testFile with
    | .error e => ⟨⟨0, 0, s "Failed to generate hash: " ++ e, false⟩, fs, []⟩
    | .ok currentHash =>
      let cachedData : Option Str :=
        match readHashCache fs cacheFile with
        | some cachedHash =>
          if cachedHash = currentHash then fs.file resultFile else none
        | none => none
      match cachedData with
      | some data =>
        let bc := parseGobcoCoverageVal data
        ⟨⟨parseCoverageReport data, if 0 < bc then bc else 0, data, true⟩, fs, []⟩
      | none =>
        let linePart :=
          match lineRun with
          | .ok out =>
            (s "=== Line Coverage Analysis ===\n" ++ out, parseCoverageReport out)
          | .error e =>
            (s "Line coverage analysis failed: " ++ e ++ s "\n", (0 : ℚ))
        let branchPart :=
          match branchRun with
          | .ok out =>
            let (bc, rep) := parseGobcoCoverage out
            (s "\n=== Branch Coverage Analysis (gobco) ===\n" ++ out
              ++ (if rep ≠ [] then s "\n" ++ rep else []), bc)
          | .error e =>
            (s "\nBranch coverage analysis failed (gobco): " ++ e ++ s "\n"
              ++ s "Note: Make sure 'gobco' is installed: go install github.com/rillig/gobco@latest\n",
             (0 : ℚ))
        let report := s "=== Coverage Analysis for main.go ===\n\n"
          ++ linePart.1 ++ branchPart.1
        ⟨⟨linePart.2, branchPart.2, report, false⟩,
         writeHashCache (fs.setFile resultFile report) cacheFile currentHash,
         [s "line_coverage", s "branch_coverage"]⟩

/-! ## Report writer (`writeResults`)

Modelled as the text the function writes to the aggregated `result.txt`. -/

/-- The timeout marker `writeResults` and the orchestrator scan for. -/
def timedOutMark : Str := s "TIMED OUT"

/-- Number of successful results. -/
def resPassedCount (results : List TestResult) : Nat :=
  results.countP fun r => r.success

/-- Number of cache-served results. -/
def resCachedCount (results : List TestResult) : Nat :=
  results.countP fun r => r.cached

/-- Number of results whose output carries the timeout marker. -/
def resTimedOutCount (results : List TestResult) : Nat :=
  results.countP fun r => containsStr r.output timedOutMark

/-- Models `strings.Repeat("=", n)`. -/
def eqRow (n : Nat) : Str := List.replicate n '='

/-- The summary line of the report (src/main.go:971-975). -/
def summaryLine (passed total cached timedOut : Nat) : Str :=
  s "Summary: " ++ natToStr passed ++ s "/" ++ natToStr total
    ++ s " tests passed (" ++ natToStr cached ++ s " cached"
    ++ (if 0 < timedOut then s ", " ++ natToStr timedOut ++ s " timed out" else [])
    ++ s ")\n\n"

/-- The MAIN.GO COVERAGE ANALYSIS section (src/main.go:978-991). -/
def coverageSection (mc : MainCoverageResult) : Str :=
  if 0 < mc.lineCoverage ∨ 0 < mc.branchCoverage ∨ mc.coverageReport ≠ [] then
    eqRow 60 ++ s "\n" ++ s "MAIN.GO COVERAGE ANALYSIS"
      ++ (if mc.cached then s " (CACHED)" else [])
      ++ s "\n" ++ eqRow 60 ++ s "\n"
      ++ (if 0 < mc.lineCoverage ∨ 0 < mc.branchCoverage then
            s "Line Coverage: " ++ fmt1 mc.lineCoverage ++ s "%\n"
              ++ s "Branch Coverage: " ++ fmt1 mc.branchCoverage ++ s "%\n"
          else [])
      ++ s "\n" ++ mc.coverageReport ++ s "\n\n"
  else []

/-- One per-candidate block of the report (src/main.go:993-1011). -/
def resultBlock (r : TestResult) : Str :=
  eqRow 40 ++ s "\n" ++ s "Test: " ++ r.name
    ++ (if r.cached then s " (CACHED)" else [])
    ++ (if containsStr r.output timedOutMark then s " (TIMED OUT)" else [])
    ++ s "\n"
    ++ (if r.success then s "Status: PASSED\n" else s "Status: FAILED\n")
    ++ eqRow 40 ++ s "\n" ++ s "Output:\n" ++ r.output ++ s "\n\n"

/-- Function `writeResults` (src/main.go:944-1014): the full text of the aggregated
report file. -/
def writeResultsStr (taskID : Str) (results : List TestResult)
    (mc : MainCoverageResult) : Str :=
  s "Go Test Results for Task " ++ taskID ++ s "\n" ++ eqRow 60 ++ s "\n\n"
    ++ summaryLine (resPassedCount results) results.length
        (resCachedCount results) (resTimedOutCount results)
    ++ coverageSection mc
    ++ (results.map resultBlock).foldr (· ++ ·) []

/-! ## Orchestrator preconditions and exit code (`main`, `readEnvFile`) -/

/-- Scan env-file lines for the first `TASK_ID=` line; its value is
everything after the first `=` (src/main.go:560-573). -/
def findTaskID : List Str → Except Str Str
  | [] => .error (s "TASK_ID not found in environment file")
  | line :: rest =>
    let tl := trimStr line
    if startsWithStr (s "TASK_ID=") tl then .ok (tl.drop 8)
    else findTaskID rest

/-- Function `readEnvFile` (src/main.go:553-574): `content` is the env file's text,
`none` when the file cannot be opened. -/
def readEnvFileM (content : Option Str) : Except Str Str :=
  match content with
  | none => .error (s "environment file not found")
  | some c => findTaskID (splitOnChar '\n' c)

/-- The bounded candidate probe range `1‥9` of `main`. -/
def candidateIdx : List Nat := [1, 2, 3, 4, 5, 6, 7, 8, 9]

/-- Candidate discovery (src/main.go:1200-1210): for each index, keep the
pair when both the folder and the `.go` file inside it exist. -/
def discoverCandidates (fs : FS) (taskDir : Str) : List (Str × Str) :=
  candidateIdx.filterMap fun i =>
    let folder := joinPath taskDir (responseLit ++ natToStr i)
    let file := joinPath folder (responseLit ++ natToStr i ++ s ".go")
    if fs.pathExists folder && fs.pathExists file then some (folder, file)
    else none

/-- The process exit code of `main` (src/main.go:1171-1335): `os.Exit(1)` at
each failed precondition, normal return (code 0) otherwise — no later
statement of `main` calls `os.Exit`. -/
def mainExitCode (env : Option Str) (fs : FS) : Nat :=
  match readEnvFileM env with
  | .error _ => 1
  | .ok taskID =>
    if !fs.pathExists taskID then 1
    else if !fs.pathExists (joinPath taskID (s "main_test.go")) then 1
    else if (discoverCandidates fs taskID).isEmpty then 1
    else 0

/-! ## Notifications (`main`'s result loop and final summary) -/

/-- The per-candidate pass notification (src/main.go:1260). -/
def passNotification (name : Str) : Str × Str :=
  (s "Go Test Passed! 🎉", name ++ s " passed all tests!")

/-- The final summary message (src/main.go:1303-1309). -/
def summaryMessage (taskID : Str) (passed total timedOut : Nat) : Str :=
  if 0 < timedOut then
    natToStr passed ++ s "/" ++ natToStr total ++ s " tests passed ("
      ++ natToStr timedOut ++ s " timed out) for Task " ++ taskID
  else
    natToStr passed ++ s "/" ++ natToStr total ++ s " tests passed for Task "
      ++ taskID

/-- The final summary notification. -/
def summaryNotification (taskID : Str) (passed total timedOut : Nat) :
    Str × Str :=
  (s "Testing Complete! 🏆", summaryMessage taskID passed total timedOut)

/-- One iteration of `main`'s result loop (src/main.go:1235-1269), threading
`(passedCount, cachedCount, timedOutCount, notifications)`. -/
def notifyStep (st : Nat × Nat × Nat × List (Str × Str)) (r : TestResult) :
    Nat × Nat × Nat × List (Str × Str) :=
  let (p, c, t, ns) := st
  let t2 := if containsStr r.output timedOutMark then t + 1 else t
  if r.success then
    if r.cached then (p + 1, c + 1, t2, ns)
    else (p + 1, c, t2, ns ++ [passNotification r.name])
  else (p, c, t2, ns)

/-- All desktop notifications `main` emits for a run, in order: the loop's
per-candidate ones, then — only when at least one candidate passed
(src/main.go:1303) — the final summary notification. -/
def runNotifications (taskID : Str) (results : List TestResult) :
    List (Str × Str) :=
  let st := results.foldl notifyStep (0, 0, 0, [])
  st.2.2.2
    ++ (if 0 < st.1 then
          [summaryNotification taskID st.1 results.length st.2.2.1]
        else [])

/-! ## Concrete fixtures for witness instances -/

/-- The identity digest, used to instantiate the abstract hash in concrete
witnesses (it is collision-free on the inputs they use). -/
def idHash : Str → Str := fun c => c

/-- The empty filesystem. -/
def emptyFS : FS := { file := fun _ => none, dir := fun _ => false }

/-- Filesystem for the cache-invalidation witness: candidate, shared test,
and a stale `hash.cache`. -/
def c1FS : FS :=
  { file := fun p =>
      if p = s "resp/response1.go" then some (s "a")
      else if p = s "main_test.go" then some (s "b")
      else if p = s "resp/hash.cache" then some (s "z")
      else none,
    dir := fun _ => false }

/-- The fresh run result the oracle runner returns in the cache-invalidation
witness. -/
def c1RunnerResult : TestResult :=
  { name := s "response_A", success := true, output := s "ok\tdone",
    lineCoverage := 0, branchCoverage := 0, coverageReport := [],
    cached := false }

/-- Oracle runner for the cache-invalidation witness: the run succeeds. -/
def c1Runner : Str → TestResult × Option Str := fun _ => (c1RunnerResult, none)

/-- Filesystem for the fingerprint-order witness: two distinct files of equal
length. -/
def c4FS : FS :=
  { file := fun p =>
      if p = s "fa" then some (s "ab")
      else if p = s "fb" then some (s "cd")
      else none,
    dir := fun _ => false }

/-- A passing, non-cached, non-timed-out result. -/
def c7Result1 : TestResult :=
  { name := s "response1", success := true, output := s "=== ok",
    lineCoverage := 0, branchCoverage := 0, coverageReport := [],
    cached := false }

/-- A failing, non-cached, non-timed-out result. -/
def c7Result2 : TestResult :=
  { name := s "response2", success := false, output := s "=== FAIL",
    lineCoverage := 0, branchCoverage := 0, coverageReport := [],
    cached := false }

/-- An empty coverage result. -/
def c7MC : MainCoverageResult :=
  { lineCoverage := 0, branchCoverage := 0, coverageReport := [],
    cached := false }

/-- A task directory satisfying every orchestrator precondition: the task
dir, the shared test and one candidate pair. -/
def c7FS : FS :=
  { file := fun p =>
      if p = s "t/main_test.go" then some (s "package main")
      else if p = s "t/response1/response1.go" then some (s "package x")
      else none,
    dir := fun p =>
      if p = s "t" then true else if p = s "t/response1" then true else false }

/-- Same layout for the exit-code witness. -/
def c8FS : FS :=
  { file := fun p =>
      if p = s "t/main_test.go" then some (s "package main")
      else if p = s "t/response1/response1.go" then some (s "package x")
      else none,
    dir := fun p =>
      if p = s "t" then true else if p = s "t/response1" then true else false }

/-- A task directory without the shared test file. -/
def c8NoTestFS : FS :=
  { file := fun _ => none,
    dir := fun p => if p = s "t" then true else false }

/-- A task directory with the shared test file but no candidates. -/
def c8NoCandFS : FS :=
  { file := fun p =>
      if p = s "t/main_test.go" then some (s "package main") else none,
    dir := fun p => if p = s "t" then true else false }

/-- A failing candidate result: the notification counterexample run. -/
def c9FailResult : TestResult :=
  { name := s "response1", success := false, output := [],
    lineCoverage := 0, branchCoverage := 0, coverageReport := [],
    cached := false }

/-- Line-coverage tool output with two `coverage:` percentages; the claimed
substring is present but is not the leftmost match. -/
def c5LineOut : Str :=
  s "coverage: 10% of statements\ncoverage: 87.5% of statements"

/-- Gobco output with two condition-coverage lines; `9/12` is present but is
not the last match. -/
def c5BranchOut : Str :=
  s "Condition coverage: 9/12\nCondition coverage: 1/2"

/-- Representative `go test -cover` output with a single coverage mention. -/
def c5LineSample : Str :=
  s "PASS\nok  \texample\t0.123s\tcoverage: 87.5% of statements\n"

/-- Representative gobco output with a single condition-coverage line. -/
def c5BranchSample : Str :=
  s "=== gobco ===\nCondition coverage: 9/12\ncondition a > 0 was never true\n"

/-! # Theorems

Helper lemmas first, then one theorem per claim (with witnesses and
counterexamples where applicable). -/

/-- Reading back the file just written. -/
theorem file_setFile_self (fs : FS) (p c : Str) :
    (fs.setFile p c).file p = some c := by
  simp [FS.setFile]

/-- Writes to one path leave other paths unchanged. -/
theorem file_setFile_ne (fs : FS) (p q c : Str) (h : q ≠ p) :
    (fs.setFile p c).file q = fs.file q := by
  simp [FS.setFile, h]

/-- Injectivity of `joinPath` in its file component. -/
theorem joinPath_right_inj {d a b : Str} (h : joinPath d a = joinPath d b) :
    a = b := by
  unfold joinPath at h
  have h2 := List.append_cancel_left h
  injection h2

/-- Two equal-length lists that commute under append are equal. -/
theorem appendCommOfEqLength {a b : Str} (hlen : a.length = b.length)
    (h : a ++ b = b ++ a) : a = b :=
  (List.append_inj h hlen).1

/-- Lemma: `stripPre` succeeds on an explicit prefix. -/
theorem stripPre_append (p x : Str) : stripPre p (p ++ x) = some x := by
  induction p with
  | nil => rfl
  | cons c cs ih => simp [stripPre, ih]

/-- Lemma: `stripPre` only succeeds on an actual prefix. -/
theorem stripPre_sound (p : Str) : ∀ n r, stripPre p n = some r → n = p ++ r := by
  induction p with
  | nil =>
    intro n r h
    simp [stripPre] at h
    simp [h]
  | cons c cs ih =>
    intro n r h
    cases n with
    | nil => exact absurd h (by simp [stripPre])
    | cons d ds =>
      unfold stripPre at h
      split at h
      · rename_i hc
        rw [hc, ih ds r h]
        rfl
      · exact absurd h (by simp)

/-- C4 (confirmed): the combined fingerprint — digest of the concatenation of
the two files' individual digests — distinguishes `(A, B)` from `(B, A)`
whenever the files' contents differ, and coincides when they are
byte-identical.  The hypotheses are exactly the collision-freeness the design
assumes of SHA-256 at the inputs involved, plus the fixed digest length. -/
theorem fingerprintOrderSensitive (h : Str → Str) (fs : FS) (fa fb ca cb : Str)
    (hfa : fs.file fa = some ca) (hfb : fs.file fb = some cb)
    (hlen : (h ca).length = (h cb).length)
    (houter : h (h ca ++ h cb) = h (h cb ++ h ca) → h ca ++ h cb = h cb ++ h ca)
    (hinner : h ca = h cb → ca = cb) :
    generateCombinedHash h fs fa fb = generateCombinedHash h fs fb fa ↔ ca = cb := by
  unfold generateCombinedHash calculateFileHash
  rw [hfa, hfb]
  simp only [Except.ok.injEq]
  constructor
  · intro he
    exact hinner (appendCommOfEqLength hlen (houter he))
  · intro he
    rw [he]

/-- Witness for C4 at concrete inputs: with the identity digest and the files
`"ab"` and `"cd"`, swapping the pair changes the fingerprint. -/
theorem fingerprintOrderSensitive_witness :
    generateCombinedHash idHash c4FS (s "fa") (s "fb") ≠
      generateCombinedHash idHash c4FS (s "fb") (s "fa") := fun he =>
  absurd
    ((fingerprintOrderSensitive idHash c4FS (s "fa") (s "fb") (s "ab") (s "cd")
        (by decide) (by decide) (by decide) (fun e => e) (fun e => e)).mp he)
    (by decide)

/-- C3 (code_bug evidence): on a timed-out run the assembled `TestResult` is
a failure and its output carries the timeout marker — but `killProcessTree`,
whose own doc comment says it "kills a process and its children", issues no
kill command at all on linux or darwin (the `syscall.Kill` call is commented
out in src/main.go:151-156), so the timed-out test process is left running
there; only on Windows is a `taskkill /F /T` issued. -/
theorem timeoutResultAndUnixKillGap :
    (terminalRunResult (s "response_A") .timedOut).success = false ∧
    containsStr (terminalRunResult (s "response_A") .timedOut).output
      timedOutMark = true ∧
    killProcessTree .linux true = [] ∧
    killProcessTree .darwin true = [] ∧
    killProcessTree .windows true = [.taskkillTree] :=
  ⟨rfl, by decide, rfl, rfl, rfl⟩

/-- C2 (confirmed): storing a report under a fingerprint and looking it up
with the same fingerprint returns the cached result: output is the stored
text, `Cached` is true, and `Success` is the scan of the text for `"PASSED"`
or `"ok\t"`.  The hypothesis `trimStr fp = fp` states that the fingerprint
carries no surrounding whitespace, which holds of every fingerprint the
program produces (hex digests); the lookup trims what it reads back. -/
theorem cacheRoundTrip (fs : FS) (folder fp report : Str)
    (hfp : trimStr fp = fp) :
    cacheLookup (cacheStore fs folder fp report) folder fp =
      some { name := baseName folder,
             success := containsStr report (s "PASSED")
               || containsStr report (s "ok\t"),
             output := report, lineCoverage := 0, branchCoverage := 0,
             coverageReport := [], cached := true } := by
  unfold cacheLookup cacheStore writeHashCache readHashCache loadCachedResult
  rw [file_setFile_self]
  simp only [Option.map]
  rw [hfp, if_pos rfl]
  rw [file_setFile_ne _ _ _ _ (fun he => by
    have := joinPath_right_inj he
    exact absurd this (by decide))]
  rw [file_setFile_self]

/-- Witness for C2: a concrete round-trip through the store. -/
theorem cacheRoundTrip_witness :
    cacheLookup (cacheStore emptyFS (s "t/response1") (s "abc123") (s "PASSED 1 test"))
      (s "t/response1") (s "abc123") =
      some { name := s "response1", success := true,
             output := s "PASSED 1 test", lineCoverage := 0,
             branchCoverage := 0, coverageReport := [], cached := true } :=
  (cacheRoundTrip emptyFS (s "t/response1") (s "abc123") (s "PASSED 1 test")
      (by decide)).trans (by decide)

/-- C1 (confirmed): when the stored fingerprint differs from the freshly
computed one (or the hash cache cannot be read), the cache lookup is absent,
`runGoTest` re-executes the test via the external runner, and — the run
returning without a terminal error — overwrites `result.txt` with the new
report and `hash.cache` with the new fingerprint. -/
theorem cacheInvalidationForcesRerun (h : Str → Str) (fs : FS)
    (responseFile testFile cur : Str)
    (runner : Str → TestResult × Option Str) (r : TestResult)
    (hcur : generateCombinedHash h fs responseFile testFile = .ok cur)
    (hmiss : readHashCache fs
      (joinPath (dirName responseFile) (s "hash.cache")) ≠ some cur)
    (hrun : runner (effectiveResponseName
      (stripSuffixStr (s ".go") (baseName responseFile))) = (r, none)) :
    cacheLookup fs (dirName responseFile) cur = none ∧
    runGoTest h fs responseFile testFile runner =
      (r, cacheStore fs (dirName responseFile) cur r.output, true) ∧
    (cacheStore fs (dirName responseFile) cur r.output).file
      (joinPath (dirName responseFile) (s "result.txt")) = some r.output ∧
    (cacheStore fs (dirName responseFile) cur r.output).file
      (joinPath (dirName responseFile) (s "hash.cache")) = some cur := by
  have hlk : cacheLookup fs (dirName responseFile) cur = none := by
    unfold cacheLookup
    cases hrc : readHashCache fs
        (joinPath (dirName responseFile) (s "hash.cache")) with
    | none => rfl
    | some ch =>
      have hne : ch ≠ cur := fun he => hmiss (by rw [hrc, he])
      simp [hne]
  refine ⟨hlk, ?_, ?_, ?_⟩
  · simp only [runGoTest, hcur, hlk, hrun]
  · unfold cacheStore writeHashCache
    rw [file_setFile_ne _ _ _ _ (fun he => absurd (joinPath_right_inj he)
      (by decide))]
    exact file_setFile_self _ _ _
  · unfold cacheStore writeHashCache
    exact file_setFile_self _ _ _

/-- Witness for C1: a stale `hash.cache` (`"z"` vs fresh `"ab"`) forces the
runner to execute and both cache files to be rewritten. -/
theorem cacheInvalidationForcesRerun_witness :
    cacheLookup c1FS (dirName (s "resp/response1.go")) (s "ab") = none ∧
    runGoTest idHash c1FS (s "resp/response1.go") (s "main_test.go") c1Runner =
      (c1RunnerResult,
       cacheStore c1FS (dirName (s "resp/response1.go")) (s "ab")
         c1RunnerResult.output, true) ∧
    (cacheStore c1FS (dirName (s "resp/response1.go")) (s "ab")
        c1RunnerResult.output).file
      (joinPath (dirName (s "resp/response1.go")) (s "result.txt")) =
        some c1RunnerResult.output ∧
    (cacheStore c1FS (dirName (s "resp/response1.go")) (s "ab")
        c1RunnerResult.output).file
      (joinPath (dirName (s "resp/response1.go")) (s "hash.cache")) =
        some (s "ab") :=
  cacheInvalidationForcesRerun idHash c1FS (s "resp/response1.go")
    (s "main_test.go") (s "ab") c1Runner c1RunnerResult rfl (by decide)
    rfl

/-- C6 (confirmed): when either reference file is absent the Coverage
Analyzer short-circuits with zero line and branch coverage and a descriptive
skip message, leaves the filesystem untouched, and invokes no external
tool (and it returns a value rather than raising — the embedded function is
total on this branch just as the Go function returns normally). -/
theorem missingReferencePairShortCircuits (h : Str → Str) (fs : FS)
    (taskDir : Str) (lineRun branchRun : Except Str Str)
    (hmiss : fs.file (joinPath taskDir (s "main.go")) = none ∨
      fs.file (joinPath taskDir (s "main_test.go")) = none) :
    (runMainCoverageAnalysis h fs taskDir lineRun branchRun).result.lineCoverage = 0 ∧
    (runMainCoverageAnalysis h fs taskDir lineRun branchRun).result.branchCoverage = 0 ∧
    (runMainCoverageAnalysis h fs taskDir lineRun branchRun).result.cached = false ∧
    ((runMainCoverageAnalysis h fs taskDir lineRun branchRun).result.coverageReport =
        s "main.go not found - skipping coverage analysis" ∨
      (runMainCoverageAnalysis h fs taskDir lineRun branchRun).result.coverageReport =
        s "main_test.go not found - skipping coverage analysis") ∧
    (runMainCoverageAnalysis h fs taskDir lineRun branchRun).calls = [] ∧
    (runMainCoverageAnalysis h fs taskDir lineRun branchRun).fs = fs := by
  rcases hmiss with hm | hm
  · simp [runMainCoverageAnalysis, hm]
  · cases hmg : fs.file (joinPath taskDir (s "main.go")) with
    | none => simp [runMainCoverageAnalysis, hmg]
    | some c => simp [runMainCoverageAnalysis, hmg, hm]

/-- Witness for C6: on an empty filesystem the analyzer reports the skip
message and calls nothing. -/
theorem missingReferencePairShortCircuits_witness :
    (runMainCoverageAnalysis idHash emptyFS (s "t") (.ok []) (.ok [])).result.lineCoverage = 0 ∧
    (runMainCoverageAnalysis idHash emptyFS (s "t") (.ok []) (.ok [])).result.branchCoverage = 0 ∧
    (runMainCoverageAnalysis idHash emptyFS (s "t") (.ok []) (.ok [])).result.cached = false ∧
    ((runMainCoverageAnalysis idHash emptyFS (s "t") (.ok []) (.ok [])).result.coverageReport =
        s "main.go not found - skipping coverage analysis" ∨
      (runMainCoverageAnalysis idHash emptyFS (s "t") (.ok []) (.ok [])).result.coverageReport =
        s "main_test.go not found - skipping coverage analysis") ∧
    (runMainCoverageAnalysis idHash emptyFS (s "t") (.ok []) (.ok [])).calls = [] ∧
    (runMainCoverageAnalysis idHash emptyFS (s "t") (.ok []) (.ok [])).fs = emptyFS :=
  missingReferencePairShortCircuits idHash emptyFS (s "t") (.ok []) (.ok [])
    (Or.inl (by decide))

/-- C8 (confirmed): `main` exits with status 1 on each fatal precondition —
missing env file, missing `TASK_ID` key, missing task directory, missing
shared test file, zero discovered candidates — and with status 0 when all
preconditions hold (normal completion; no later statement exits). -/
theorem processExitCodes (env : Option Str) (fs : FS) :
    (env = none → mainExitCode env fs = 1) ∧
    ((readEnvFileM env).isOk = false → mainExitCode env fs = 1) ∧
    (∀ tid, readEnvFileM env = .ok tid →
      (fs.pathExists tid = false → mainExitCode env fs = 1) ∧
      (fs.pathExists tid = true →
        fs.pathExists (joinPath tid (s "main_test.go")) = false →
        mainExitCode env fs = 1) ∧
      (fs.pathExists tid = true →
        fs.pathExists (joinPath tid (s "main_test.go")) = true →
        discoverCandidates fs tid = [] → mainExitCode env fs = 1) ∧
      (fs.pathExists tid = true →
        fs.pathExists (joinPath tid (s "main_test.go")) = true →
        discoverCandidates fs tid ≠ [] → mainExitCode env fs = 0)) := by
  refine ⟨?_, ?_, ?_⟩
  · intro he
    subst he
    rfl
  · intro hnk
    unfold mainExitCode
    cases hre : readEnvFileM env with
    | error e => rfl
    | ok tid =>
      rw [hre] at hnk
      simp [Except.isOk, Except.toBool] at hnk
  · intro tid hre
    refine ⟨?_, ?_, ?_, ?_⟩
    · intro h1
      unfold mainExitCode
      rw [hre]
      simp [h1]
    · intro h1 h2
      unfold mainExitCode
      rw [hre]
      simp [h1, h2]
    · intro h1 h2 h3
      unfold mainExitCode
      rw [hre]
      simp [h1, h2, h3]
    · intro h1 h2 h3
      unfold mainExitCode
      rw [hre]
      simp [h1, h2, h3]

/-- Witness for C8: each fatal precondition yields 1 on a concrete layout,
and the satisfied preconditions yield 0. -/
theorem processExitCodes_witness :
    mainExitCode none c8FS = 1 ∧
    mainExitCode (some (s "FOO=1")) c8FS = 1 ∧
    mainExitCode (some (s "TASK_ID=missing")) c8FS = 1 ∧
    mainExitCode (some (s "TASK_ID=t")) c8NoTestFS = 1 ∧
    mainExitCode (some (s "TASK_ID=t")) c8NoCandFS = 1 ∧
    mainExitCode (some (s "TASK_ID=t")) c8FS = 0 :=
  ⟨(processExitCodes none c8FS).1 rfl,
   (processExitCodes (some (s "FOO=1")) c8FS).2.1 (by decide),
   (((processExitCodes (some (s "TASK_ID=missing")) c8FS).2.2 (s "missing")
       rfl).1 (by decide)),
   (((processExitCodes (some (s "TASK_ID=t")) c8NoTestFS).2.2 (s "t")
       rfl).2.1 (by decide) (by decide)),
   (((processExitCodes (some (s "TASK_ID=t")) c8NoCandFS).2.2 (s "t")
       rfl).2.2.1 (by decide) (by decide) (by decide)),
   (((processExitCodes (some (s "TASK_ID=t")) c8FS).2.2 (s "t")
       rfl).2.2.2 (by decide) (by decide) (by decide))⟩

/-- Evaluation of `renameResponse` on a matching name: everything hinges on
the numeric range check. -/
theorem renameResponse_eval (ds : Str) (hne : ds ≠ [])
    (hdig : ds.all Char.isDigit = true) :
    renameResponse (responseLit ++ ds) =
      if digitsToNat ds < 1 ∨ 26 < digitsToNat ds then
        .error (s "only supports 1-26")
      else .ok (s "response_" ++ [Char.ofNat ('A'.toNat + digitsToNat ds - 1)]) := by
  have hmatch : respMatch (responseLit ++ ds) = some ds := by
    unfold respMatch
    rw [stripPre_append]
    have hie : ds.isEmpty = false := by
      cases ds with
      | nil => exact absurd rfl hne
      | cons a l => rfl
    simp [hie, hdig]
  unfold renameResponse
  rw [hmatch]

/-- C10 (confirmed): `renameResponse` maps `"response<N>"` to `"response_"`
followed by the `N`-th uppercase letter exactly when `1 ≤ N ≤ 26`, errors on
every other matching or non-matching input, and on error the runner falls
back to the original candidate name. -/
theorem renameResponseSpec :
    (∀ ds : Str, ds ≠ [] → ds.all Char.isDigit = true →
      1 ≤ digitsToNat ds → digitsToNat ds ≤ 26 →
      renameResponse (responseLit ++ ds) =
        .ok (s "response_" ++ [Char.ofNat ('A'.toNat + digitsToNat ds - 1)])) ∧
    (∀ ds : Str, ds ≠ [] → ds.all Char.isDigit = true →
      (digitsToNat ds = 0 ∨ 26 < digitsToNat ds) →
      renameResponse (responseLit ++ ds) = .error (s "only supports 1-26")) ∧
    (∀ name : Str,
      (¬ ∃ ds, name = responseLit ++ ds ∧ ds ≠ [] ∧ ds.all Char.isDigit = true) →
      renameResponse name = .error (s "invalid format: " ++ name)) ∧
    (∀ name e, renameResponse name = .error e →
      effectiveResponseName name = name) := by
  refine ⟨?_, ?_, ?_, ?_⟩
  · intro ds hne hdig h1 h2
    rw [renameResponse_eval ds hne hdig, if_neg (by omega)]
  · intro ds hne hdig hout
    rw [renameResponse_eval ds hne hdig, if_pos (by omega)]
  · intro name hno
    unfold renameResponse respMatch
    cases hsp : stripPre responseLit name with
    | none => rfl
    | some ds =>
      have hname := stripPre_sound _ _ _ hsp
      have hfail : ¬(ds ≠ [] ∧ ds.all Char.isDigit = true) := fun hx =>
        hno ⟨ds, hname, hx.1, hx.2⟩
      have hcond : (!ds.isEmpty && ds.all Char.isDigit) = false := by
        by_cases he : ds = []
        · subst he
          rfl
        · cases hb : ds.all Char.isDigit with
          | false => simp [hb]
          | true => exact absurd ⟨he, hb⟩ hfail
      simp only [hcond]
      rfl
  · intro name e he
    unfold effectiveResponseName
    rw [he]

/-- Witness for C10 at concrete names: `response3 ↦ response_C`; `response0`
and `response27` are out of range; `main` does not match and falls back. -/
theorem renameResponseSpec_witness :
    renameResponse (s "response3") = .ok (s "response_C") ∧
    renameResponse (s "response0") = .error (s "only supports 1-26") ∧
    renameResponse (s "response27") = .error (s "only supports 1-26") ∧
    renameResponse (s "main") = .error (s "invalid format: " ++ s "main") ∧
    effectiveResponseName (s "main") = s "main" := by
  have hno : ¬ ∃ ds, s "main" = responseLit ++ ds ∧ ds ≠ [] ∧
      ds.all Char.isDigit = true := by
    rintro ⟨ds, hname, -, -⟩
    have hlen := congrArg List.length hname
    rw [List.length_append] at hlen
    rw [show (s "main").length = 4 from rfl,
      show responseLit.length = 8 from rfl] at hlen
    omega
  have hm := renameResponseSpec.2.2.1 (s "main") hno
  exact ⟨renameResponseSpec.1 (s "3") (by decide) (by decide) (by decide)
      (by decide),
    renameResponseSpec.2.1 (s "0") (by decide) (by decide) (Or.inl (by decide)),
    renameResponseSpec.2.1 (s "27") (by decide) (by decide)
      (Or.inr (by decide)),
    hm,
    renameResponseSpec.2.2.2 (s "main") _ hm⟩

/-- Characterization of `main`'s result loop: starting from any accumulator,
the loop adds the success/cache/timeout counts and appends one pass
notification per successful non-cached result, in order. -/
theorem notifyFold (l : List TestResult) :
    ∀ p c t ns, l.foldl notifyStep (p, c, t, ns) =
      (p + resPassedCount l,
       c + (l.countP fun r => r.success && r.cached),
       t + resTimedOutCount l,
       ns ++ (l.filter fun r => r.success && !r.cached).map fun r =>
         passNotification r.name) := by
  induction l with
  | nil =>
    intro p c t ns
    simp [resPassedCount, resCachedCount, resTimedOutCount]
  | cons r rest ih =>
    intro p c t ns
    simp only [List.foldl_cons]
    cases hs : r.success <;> cases hc : r.cached <;>
      cases ht : containsStr r.output timedOutMark <;>
      simp [notifyStep, hs, hc, ht, ih, resPassedCount, resCachedCount,
        resTimedOutCount, List.countP_cons, List.filter_cons] <;>
      omega

/-- C9 (corrected): the notifications of a run are exactly one per passing
non-cached candidate — plus the final summary notification only when at
least one candidate passed; a run with zero passing candidates emits no
summary notification (src/main.go:1303 guards it with `passedCount > 0`). -/
theorem notificationsPerPassPlusSummary (taskID : Str)
    (results : List TestResult) :
    runNotifications taskID results =
      ((results.filter fun r => r.success && !r.cached).map fun r =>
        passNotification r.name)
      ++ (if 0 < resPassedCount results then
            [summaryNotification taskID (resPassedCount results)
              results.length (resTimedOutCount results)]
          else []) := by
  unfold runNotifications
  rw [notifyFold]
  simp

/-- Counterexample for C9 as stated: a run whose single candidate fails
emits no notification at all — in particular not the final summary
notification the claim requires on every run. -/
theorem notificationsMissingSummaryOnFailedRun :
    runNotifications (s "t") [c9FailResult] = [] := by decide

/-- C7 (confirmed): when exactly one of two candidates succeeded, none came
from cache and none timed out, the aggregated report contains the summary
line `1/2 tests passed (0 cached)`; and with every orchestrator precondition
satisfied the process completes normally with exit code 0. -/
theorem summaryLineOneOfTwoPassed (taskID : Str) (r1 r2 : TestResult)
    (mc : MainCoverageResult)
    (hx : (r1.success = true ∧ r2.success = false) ∨
      (r1.success = false ∧ r2.success = true))
    (hc1 : r1.cached = false) (hc2 : r2.cached = false)
    (ht1 : containsStr r1.output timedOutMark = false)
    (ht2 : containsStr r2.output timedOutMark = false)
    (env : Option Str) (fs : FS) (tid : Str)
    (henv : readEnvFileM env = .ok tid)
    (hdir : fs.pathExists tid = true)
    (htest : fs.pathExists (joinPath tid (s "main_test.go")) = true)
    (hcand : discoverCandidates fs tid ≠ []) :
    (∃ pre post, writeResultsStr taskID [r1, r2] mc =
      pre ++ s "1/2 tests passed (0 cached)" ++ post) ∧
    mainExitCode env fs = 0 := by
  constructor
  · have hp : resPassedCount [r1, r2] = 1 := by
      rcases hx with ⟨h1, h2⟩ | ⟨h1, h2⟩ <;>
        simp [resPassedCount, List.countP_cons, h1, h2]
    have hc : resCachedCount [r1, r2] = 0 := by
      simp [resCachedCount, List.countP_cons, hc1, hc2]
    have ht : resTimedOutCount [r1, r2] = 0 := by
      simp [resTimedOutCount, List.countP_cons, ht1, ht2]
    refine ⟨s "Go Test Results for Task " ++ taskID ++ s "\n" ++ eqRow 60
        ++ s "\n\n" ++ s "Summary: ",
      s "\n\n" ++ coverageSection mc
        ++ (([r1, r2].map resultBlock).foldr (· ++ ·) []), ?_⟩
    unfold writeResultsStr
    rw [hp, hc, ht, show ([r1, r2] : List TestResult).length = 2 from rfl,
      show summaryLine 1 2 0 0 = s "Summary: "
        ++ s "1/2 tests passed (0 cached)" ++ s "\n\n" from by decide]
    simp [List.append_assoc]
  · unfold mainExitCode
    rw [henv]
    simp [hdir, htest, hcand]

/-- Witness for C7: a concrete pair of results (one passing, one failing)
and a concrete satisfied task layout. -/
theorem summaryLineOneOfTwoPassed_witness :
    (∃ pre post, writeResultsStr (s "t") [c7Result1, c7Result2] c7MC =
      pre ++ s "1/2 tests passed (0 cached)" ++ post) ∧
    mainExitCode (some (s "TASK_ID=t")) c7FS = 0 :=
  summaryLineOneOfTwoPassed (s "t") c7Result1 c7Result2 c7MC
    (Or.inl ⟨rfl, rfl⟩) rfl rfl (by decide) (by decide)
    (some (s "TASK_ID=t")) c7FS (s "t") rfl (by decide) (by decide) (by decide)

/-- The coverage value component of one gobco scan step: the report text does
not feed back into it. -/
theorem gobcoStep_fst (st : ℚ × Str) (line : Str) :
    (gobcoStep st line).1 =
      if containsStr (trimStr line) (s "Condition coverage:") = true then
        match findCondCapture (trimStr line) with
        | some (c, t) =>
          if 0 < digitsToNat t then
            ((digitsToNat c : ℚ) / (digitsToNat t : ℚ)) * 100
          else st.1
        | none => st.1
      else st.1 := by
  obtain ⟨bc, rep⟩ := st
  unfold gobcoStep
  by_cases h1 : containsStr (trimStr line) (s "Condition coverage:") = true
  · simp only [h1, if_true]
    cases hfc : findCondCapture (trimStr line) with
    | none =>
      simp only [hfc]
      split <;> rfl
    | some ct =>
      obtain ⟨c, t⟩ := ct
      simp only [hfc]
      by_cases h2 : 0 < digitsToNat t
      · simp only [h2, if_true]
        split <;> rfl
      · simp only [h2, if_false]
        split <;> rfl
  · simp only [h1, if_false]
    split <;> rfl

/-- Counterexample for C5 as stated: the claim quantifies over *any* tool
output containing the marker text, but `parseCoverageReport` keeps the
leftmost `coverage:` match and `parseGobcoCoverage` keeps the last
condition-coverage line, so outputs with an additional match elsewhere
return a different value. -/
theorem coverageParsingLeftmostLastCounterexample :
    containsStr c5LineOut (s "coverage: 87.5% of statements") = true ∧
    parseCoverageReport c5LineOut = 10 ∧ ((10 : ℚ) ≠ 87.5) ∧
    s "Condition coverage: 9/12" ∈ splitOnChar '\n' c5BranchOut ∧
    parseGobcoCoverageVal c5BranchOut = 50 ∧ ((50 : ℚ) ≠ 75) := by
  refine ⟨by decide, ?_, by norm_num, by decide, ?_, by norm_num⟩
  · unfold parseCoverageReport
    rw [show findCoverageCapture c5LineOut = some (s "10") from by decide]
    unfold capToRat
    simp only [show List.span Char.isDigit (s "10") =
      ((s "10" : Str), ([] : Str)) from by decide]
    norm_num [show digitsToNat (s "10") = 10 from by decide]
  · unfold parseGobcoCoverageVal parseGobcoCoverage
    rw [show splitOnChar '\n' c5BranchOut =
      [s "Condition coverage: 9/12", s "Condition coverage: 1/2"]
      from by decide]
    simp only [List.foldl_cons, List.foldl_nil]
    rw [gobcoStep_fst]
    simp only [show findCondCapture (trimStr (s "Condition coverage: 1/2")) =
        some (s "1", s "2") from by decide,
      show containsStr (trimStr (s "Condition coverage: 1/2"))
        (s "Condition coverage:") = true from by decide,
      eq_self_iff_true, if_true]
    norm_num [show digitsToNat (s "1") = 1 from by decide,
      show digitsToNat (s "2") = 2 from by decide]

/-- C5 (corrected): on tool output whose *only* coverage mention is
`coverage: 87.5% of statements` the line parser returns 87.5, and on gobco
output whose *only* (hence last) condition-coverage line is
`Condition coverage: 9/12` the branch parser returns 75. -/
theorem coverageParsingAtSamples :
    parseCoverageReport c5LineSample = (87.5 : ℚ) ∧
    parseGobcoCoverageVal c5BranchSample = 75 := by
  constructor
  · unfold parseCoverageReport
    rw [show findCoverageCapture c5LineSample = some (s "87.5") from by decide]
    unfold capToRat
    simp only [show List.span Char.isDigit (s "87.5") =
      ((s "87" : Str), '.' :: (s "5" : Str)) from by decide]
    norm_num [show digitsToNat (s "87") = 87 from by decide,
      show digitsToNat (s "5") = 5 from by decide,
      show (s "5").length = 1 from by decide]
  · unfold parseGobcoCoverageVal parseGobcoCoverage
    rw [show splitOnChar '\n' c5BranchSample =
      [s "=== gobco ===", s "Condition coverage: 9/12",
       s "condition a > 0 was never true", ([] : Str)] from by decide]
    simp only [List.foldl_cons, List.foldl_nil]
    rw [gobcoStep_fst, if_neg (by decide)]
    rw [gobcoStep_fst, if_neg (by decide)]
    rw [gobcoStep_fst]
    simp only [show findCondCapture (trimStr (s "Condition coverage: 9/12")) =
        some (s "9", s "12") from by decide,
      show containsStr (trimStr (s "Condition coverage: 9/12"))
        (s "Condition coverage:") = true from by decide,
      eq_self_iff_true, if_true]
    norm_num [show digitsToNat (s "9") = 9 from by decide,
      show digitsToNat (s "12") = 12 from by decide]

end BCB
